import Mathlib

/-!
Formal model of the OnliDesk client file-transfer engine
(src/client/src/filetransfer), embedded shallowly in Lean 4.

Each definition mirrors one function of the C++ source:
`FileTransferManager.cpp`, `FileTransferSession.cpp`,
`FileTransferWorker.cpp` and `ApprovalDialog.cpp`.  Qt machine integers
(`int`, `qint64`) are modelled as `Int` (with explicit signed-32-bit
reinterpretation where the code narrows), bytes as `Fin 256`,
`QByteArray` as `List (Fin 256)`, `QString` as `String`, `QHash` /
`QMap` / `QSet` as association lists, and `double` percentages as `ℚ`.
External collaborators (the JSON document codec of Qt, the filesystem)
are passed in as parameters or snapshot records.
-/

/-- Transfer status values, from `enum class TransferStatus`
(FileTransferManager.h). -/
inductive TransferStatus
  | Pending
  | Approved
  | InProgress
  | Paused
  | Completed
  | Failed
  | Cancelled
  | Rejected
deriving DecidableEq, Repr

/-- The terminal statuses named by the specification:
Completed, Failed, Cancelled, Rejected. -/
def isTerminalStatus : TransferStatus → Bool
  | .Completed => true
  | .Failed => true
  | .Cancelled => true
  | .Rejected => true
  | _ => false

/-- `QStringList::contains`, exact string comparison. -/
def containsString : List String → String → Bool
  | [], _ => false
  | x :: xs, s => if x = s then true else containsString xs s

/-- The characters after the last occurrence of `sep`, or `none` when
`sep` does not occur. -/
def afterLastSep (sep : Char) : List Char → Option (List Char)
  | [] => none
  | c :: cs =>
    match afterLastSep sep cs with
    | some t => some t
    | none => if c = sep then some cs else none

/-- `QFileInfo::fileName`: the part of the path after the last `/`. -/
def qtFileName (path : String) : String :=
  match afterLastSep '/' path.data with
  | some t => String.mk t
  | none => path

/-- `QFileInfo::suffix`: the part of the file name after the last `.`,
empty when the file name contains no dot. -/
def qtSuffix (path : String) : String :=
  match afterLastSep '.' (qtFileName path).data with
  | some t => String.mk t
  | none => ""

/-- `QString::toLower` on the character list (ASCII case folding, which
covers every extension the code compares). -/
def qtToLower (s : String) : String :=
  String.mk (s.data.map Char.toLower)

/-- `QHash<QString,bool>` lookup (`contains` + `value`): the value most
recently inserted for the key. -/
def lookupDecision : List (String × Bool) → String → Option Bool
  | [], _ => none
  | (k, v) :: rest, tid => if k = tid then some v else lookupDecision rest tid

/-- `QHash<QString,bool>::insert`: later insertions shadow earlier ones. -/
def insertDecision (m : List (String × Bool)) (tid : String) (v : Bool) :
    List (String × Bool) :=
  (tid, v) :: m

/-- `QMap<int,int>::value(key, 0)` for the per-chunk retry counters. -/
def retriesValue : List (Int × Nat) → Int → Nat
  | [], _ => 0
  | (k, v) :: rest, i => if k = i then v else retriesValue rest i

/-- `QMap<int,int>` assignment `m[key] = v`. -/
def setRetries (m : List (Int × Nat)) (i : Int) (v : Nat) : List (Int × Nat) :=
  (i, v) :: m

/-- `QSet<int>::contains`. -/
def containsInt : List Int → Int → Bool
  | [], _ => false
  | x :: xs, i => if x = i then true else containsInt xs i

/-- `QSet<int>::insert`. -/
def insertInt (i : Int) (s : List Int) : List Int :=
  if containsInt s i then s else i :: s

/-- Default allowed file extensions, from the FileTransferManager
constructor. -/
def defaultAllowedExtensions : List String :=
  [".txt", ".pdf", ".doc", ".docx", ".xls", ".xlsx",
   ".zip", ".rar", ".jpg", ".png", ".gif", ".bmp",
   ".ppt", ".pptx", ".csv", ".rtf", ".odt", ".ods"]

/-- `MAX_FILE_SIZE = 100 * 1024 * 1024` (FileTransferManager.cpp). -/
def defaultMaxFileSize : Int := 104857600

/-- `MAX_CHUNK_RETRIES = 3` (FileTransferWorker.cpp). -/
def maxChunkRetries : Nat := 3

/-- `RETRY_DELAY_BASE = 1000` ms (FileTransferWorker.cpp). -/
def retryDelayBase : Nat := 1000

/-- `MAX_RECONNECT_ATTEMPTS = 5` (FileTransferManager.h). -/
def maxReconnectAttempts : Nat := 5

/-- `m_approvalTimeout(30)` in the FileTransferManager constructor. -/
def defaultApprovalTimeout : Int := 30

/-- `ApprovalDialog::DEFAULT_TIMEOUT = 60` seconds (ApprovalDialog.h). -/
def approvalDialogDefaultTimeout : Int := 60

/-- `FileTransferManager::isFileExtensionAllowed`: builds
`"." + suffix.toLower()` and tests membership in the allowed list. -/
def isFileExtensionAllowed (allowedExtensions : List String) (filePath : String) :
    Bool :=
  containsString allowedExtensions ("." ++ qtToLower (qtSuffix filePath))

/-- `FileTransferManager::isFileSizeValid`:
`fileSize > 0 && fileSize <= m_maxFileSize`. -/
def isFileSizeValid (maxFileSize fileSize : Int) : Bool :=
  decide (0 < fileSize) && decide (fileSize ≤ maxFileSize)

/-- The distinct failure reasons of `FileTransferManager::validateFile`. -/
inductive ValidationError
  | fileDoesNotExist
  | notAFile
  | fileTooLarge
  | extensionNotAllowed
  | executableNotAllowed
deriving DecidableEq, Repr

/-- Snapshot of what `QFileInfo` / `QMimeDatabase` report for a local
path: existence, regular-file flag, size, and whether the MIME type name
starts with `application/x-executable`. -/
structure LocalFileInfo where
  fileExists : Bool
  isRegularFile : Bool
  size : Int
  path : String
  mimeIsExecutable : Bool
deriving DecidableEq, Repr

/-- `FileTransferManager::validateFile`, check for check.  The extension
check is skipped when the suffix is empty
(`!extension.isEmpty() && !m_allowedExtensions.contains("." + extension)`). -/
def validateFile (maxFileSize : Int) (allowedExtensions : List String)
    (fi : LocalFileInfo) : Option ValidationError :=
  if fi.fileExists = false then some .fileDoesNotExist
  else if fi.isRegularFile = false then some .notAFile
  else if maxFileSize < fi.size then some .fileTooLarge
  else
    let extension := qtToLower (qtSuffix fi.path)
    if extension ≠ "" ∧ containsString allowedExtensions ("." ++ extension) = false then
      some .extensionNotAllowed
    else if fi.mimeIsExecutable then some .executableNotAllowed
    else none

/-- Outcome of evaluating an inbound `transfer_request`: an immediate
decision (a `transfer_approval` reply is sent), or a prompt shown to the
user. -/
inductive ApprovalEvaluation
  | decided (approved : Bool) (message : String)
  | prompted
deriving DecidableEq, Repr

/-- The policy snapshot read by `onTransferRequestReceived` and
`showApprovalDialog`. -/
structure ApprovalConfig where
  allowedExtensions : List String
  maxFileSize : Int
  autoApprovalEnabled : Bool
  rememberDecisionEnabled : Bool
  rememberedDecisions : List (String × Bool)
deriving DecidableEq, Repr

/-- The fields of an inbound `transfer_request` frame that the approval
evaluation reads. -/
structure IncomingRequest where
  transferId : String
  filename : String
  fileSize : Int
deriving DecidableEq, Repr

/-- `FileTransferManager::onTransferRequestReceived` followed by
`showApprovalDialog`: extension check, then size check, then
auto-approval, then (inside `showApprovalDialog`) the remembered
decision, and only then the dialog prompt. -/
def evaluateTransferRequest (cfg : ApprovalConfig) (req : IncomingRequest) :
    ApprovalEvaluation :=
  if isFileExtensionAllowed cfg.allowedExtensions req.filename = false then
    .decided false ("File extension not allowed: " ++ qtSuffix req.filename)
  else if isFileSizeValid cfg.maxFileSize req.fileSize = false then
    .decided false ("File size exceeds maximum allowed: " ++ toString req.fileSize ++ " bytes")
  else if cfg.autoApprovalEnabled then
    .decided true "Auto-approved"
  else
    match (if cfg.rememberDecisionEnabled then
             lookupDecision cfg.rememberedDecisions req.transferId
           else none) with
    | some true => .decided true "Auto-approved (remembered)"
    | some false => .decided false "Auto-rejected (remembered)"
    | none => .prompted

/-- The mutable per-session state touched by
`FileTransferSession::setStatus` and its callers. -/
structure SessionState where
  status : TransferStatus
  errorMessage : String
  isPaused : Bool
  isCancelled : Bool
  speedTimerRunning : Bool
deriving DecidableEq, Repr

/-- `FileTransferSession::setStatus`: a no-op when the status is
unchanged; otherwise the new status is stored unconditionally and the
speed timer is started or stopped. -/
def sessionSetStatus (s : SessionState) (st : TransferStatus) : SessionState :=
  if s.status = st then s
  else
    let timer :=
      if st = .InProgress ∧ s.status = .Approved then true
      else if st = .Completed ∨ st = .Failed ∨ st = .Cancelled then false
      else if st = .Paused then false
      else if st = .InProgress ∧ s.status = .Paused then true
      else s.speedTimerRunning
    { s with status := st, speedTimerRunning := timer }

/-- `FileTransferSession::setError`: stores the message, then calls
`setStatus(Failed)`. -/
def sessionSetError (s : SessionState) (e : String) : SessionState :=
  sessionSetStatus { s with errorMessage := e } .Failed

/-- `FileTransferSession::setPaused`. -/
def sessionSetPaused (s : SessionState) (paused : Bool) : SessionState :=
  if paused then sessionSetStatus { s with isPaused := paused } .Paused
  else sessionSetStatus { s with isPaused := paused } .InProgress

/-- `FileTransferSession::setCancelled`. -/
def sessionSetCancelled (s : SessionState) (cancelled : Bool) : SessionState :=
  if cancelled then sessionSetStatus { s with isCancelled := cancelled } .Cancelled
  else { s with isCancelled := cancelled }

/-- The operations that reach `setStatus`: direct calls, the
`file_transfer_response` handler, the `transfer_status_update` handler,
and the pause/resume/cancel control paths. -/
inductive SessionOp
  | setStatus (st : TransferStatus)
  | transferResponse (status : String) (message : String)
  | statusUpdate (status : String) (message : String)
  | pause
  | resume
  | cancel
deriving DecidableEq, Repr

/-- Applies one operation to a session, mirroring
`FileTransferManager::handleTransferResponse`,
`handleTransferStatusUpdate`, and the worker pause/resume/cancel
paths. -/
def applySessionOp (s : SessionState) : SessionOp → SessionState
  | .setStatus st => sessionSetStatus s st
  | .transferResponse status message =>
    if status = "pending" then sessionSetStatus s .Pending
    else if status = "approved" then sessionSetStatus s .Approved
    else if status = "rejected" then sessionSetError (sessionSetStatus s .Rejected) message
    else s
  | .statusUpdate status message =>
    if status = "approved" then sessionSetStatus s .Approved
    else if status = "rejected" then sessionSetError (sessionSetStatus s .Rejected) message
    else s
  | .pause => sessionSetPaused s true
  | .resume => sessionSetPaused s false
  | .cancel => sessionSetCancelled s true

/-- A session after a list of operations. -/
def runSessionOps (s : SessionState) : List SessionOp → SessionState
  | [] => s
  | op :: ops => runSessionOps (applySessionOp s op) ops

/-- A fresh session (`FileTransferSession` constructor): `Pending`, no
error, not paused, not cancelled, speed timer stopped. -/
def mkSessionState : SessionState :=
  ⟨.Pending, "", false, false, false⟩

/-- The progress-related fields of `FileTransferSession`. -/
structure ProgressState where
  fileSize : Int
  totalBytes : Int
  bytesTransferred : Int
  percentage : ℚ
  totalChunks : Int
  completedChunks : Int
deriving DecidableEq, Repr

/-- The `FileTransferSession` constructor: `totalBytes = fileSize`,
zero progress, and `totalChunks = (fileSize + CHUNK_SIZE - 1) / CHUNK_SIZE`
when `fileSize > 0`.  The chunk size is a positive configuration
constant and is passed as a parameter. -/
def mkProgressState (chunkSize fileSize : Int) : ProgressState :=
  { fileSize := fileSize
    totalBytes := fileSize
    bytesTransferred := 0
    percentage := 0
    totalChunks := if 0 < fileSize then (fileSize + chunkSize - 1) / chunkSize else 0
    completedChunks := 0 }

/-- `FileTransferSession::updateChunkProgress`: stores the completed
count; when `totalChunks > 0` sets
`bytesTransferred = min(completed * CHUNK_SIZE, fileSize)` (with the
last-chunk special case) and recomputes the percentage when
`totalBytes > 0`. -/
def updateChunkProgress (chunkSize : Int) (p : ProgressState)
    (completedChunks : Int) : ProgressState :=
  if 0 < p.totalChunks then
    let bytes0 : Int := completedChunks * chunkSize
    let bytes1 : Int :=
      if completedChunks = p.totalChunks ∧ 0 < p.fileSize then p.fileSize else bytes0
    let bt := min bytes1 p.fileSize
    let pct : ℚ :=
      if 0 < p.totalBytes then ((bt : ℚ) / (p.totalBytes : ℚ)) * 100 else p.percentage
    { p with completedChunks := completedChunks, bytesTransferred := bt, percentage := pct }
  else
    { p with completedChunks := completedChunks }

/-- Total chunk count computed by the `FileTransferSession` constructor
(`(fileSize + CHUNK_SIZE - 1) / CHUNK_SIZE` when `fileSize > 0`). -/
def sessionTotalChunks (chunkSize fileSize : Nat) : Nat :=
  if 0 < fileSize then (fileSize + chunkSize - 1) / chunkSize else 0

/-- Total chunk count computed by the `FileTransferWorker` constructor
(the same formula on the same request). -/
def workerTotalChunks (chunkSize fileSize : Nat) : Nat :=
  if 0 < fileSize then (fileSize + chunkSize - 1) / chunkSize else 0

/-- The retry-relevant state of a `FileTransferWorker`. -/
structure WorkerRetryState where
  isRunning : Bool
  isCancelled : Bool
  currentChunkIndex : Int
  failedChunks : List Int
  chunkRetries : List (Int × Nat)
deriving DecidableEq, Repr

/-- Observable result of one timeout or checksum-mismatch event:
nothing (guard rejected the event), a retry scheduled after a delay in
milliseconds, or a fatal `transferFailed` with its message. -/
inductive RetryAction
  | ignored
  | scheduledRetry (delayMs : Nat)
  | failed (error : String)
deriving DecidableEq, Repr

/-- `FileTransferWorker::onChunkTimeout`: adds the current index to the
failed set, increments its retry counter; at `MAX_CHUNK_RETRIES` emits
`transferFailed`, otherwise schedules a retry after
`RETRY_DELAY_BASE * 2^(retryCount - 1)` ms. -/
def onChunkTimeout (st : WorkerRetryState) : WorkerRetryState × RetryAction :=
  if st.isRunning = false ∨ st.isCancelled = true then (st, .ignored)
  else
    let i := st.currentChunkIndex
    let retryCount := retriesValue st.chunkRetries i + 1
    let st1 := { st with failedChunks := insertInt i st.failedChunks,
                         chunkRetries := setRetries st.chunkRetries i retryCount }
    if maxChunkRetries ≤ retryCount then
      (st1, .failed ("Chunk " ++ toString i ++ " failed after 3 retries"))
    else
      (st1, .scheduledRetry (retryDelayBase * 2 ^ (retryCount - 1)))

/-- The checksum-mismatch branch of
`FileTransferWorker::processReceivedChunk`: the same counter, bound and
backoff as the timeout path, with its own failure message. -/
def onChunkChecksumMismatch (st : WorkerRetryState) (chunkIndex : Int) :
    WorkerRetryState × RetryAction :=
  if st.isRunning = false ∨ st.isCancelled = true then (st, .ignored)
  else
    let retryCount := retriesValue st.chunkRetries chunkIndex + 1
    let st1 := { st with failedChunks := insertInt chunkIndex st.failedChunks,
                         chunkRetries := setRetries st.chunkRetries chunkIndex retryCount }
    if maxChunkRetries ≤ retryCount then
      (st1, .failed ("Chunk " ++ toString chunkIndex ++ " checksum failed after 3 retries"))
    else
      (st1, .scheduledRetry (retryDelayBase * 2 ^ (retryCount - 1)))

/-- A fresh worker about to stream its first chunk. -/
def mkWorkerRetryState : WorkerRetryState :=
  ⟨true, false, 0, [], []⟩

/-- The decision-relevant state of an `ApprovalDialog`. -/
structure ApprovalDialogState where
  approved : Bool
  message : String
  rememberChecked : Bool
  timeoutSeconds : Int
  remainingSeconds : Int
  timeoutTimerActive : Bool
deriving DecidableEq, Repr

/-- A freshly constructed `ApprovalDialog`: not approved, empty message,
remember checkbox unchecked, timeout fields at `DEFAULT_TIMEOUT`. -/
def mkApprovalDialog : ApprovalDialogState :=
  ⟨false, "", false, approvalDialogDefaultTimeout, approvalDialogDefaultTimeout, false⟩

/-- `ApprovalDialog::setAutoTimeout`. -/
def dialogSetAutoTimeout (d : ApprovalDialogState) (seconds : Int) :
    ApprovalDialogState :=
  if 0 < seconds then
    { d with timeoutSeconds := seconds, remainingSeconds := seconds,
             timeoutTimerActive := true }
  else
    { d with timeoutSeconds := seconds, remainingSeconds := seconds,
             timeoutTimerActive := false }

/-- `ApprovalDialog::onTimeout`: auto-reject with the message
`"Request timed out"`; the remember checkbox is left untouched. -/
def dialogOnTimeout (d : ApprovalDialogState) : ApprovalDialogState :=
  { d with approved := false, message := "Request timed out" }

/-- `FileTransferManager::setApprovalTimeout`:
`m_approvalTimeout = qMax(5, seconds)`. -/
def setApprovalTimeoutClamp (seconds : Int) : Int :=
  max 5 seconds

/-- `FileTransferManager::onApprovalDialogFinished`: saves a remembered
decision exactly when the dialog's checkbox is checked, then forwards
`(approved, message)` to `processApprovalDecision`. -/
def onApprovalDialogFinished (decisions : List (String × Bool))
    (transferId : String) (d : ApprovalDialogState) :
    List (String × Bool) × Bool × String :=
  ((if d.rememberChecked then insertDecision decisions transferId d.approved
    else decisions),
   d.approved, d.message)

/-- Reconnection-relevant state of the manager's WebSocket handling. -/
structure TransportState where
  isConnected : Bool
  reconnectAttempts : Nat
  reconnectTimerActive : Bool
  pingTimerActive : Bool
deriving DecidableEq, Repr

/-- The events that drive the reconnection logic. -/
inductive TransportEvent
  | socketConnected
  | socketDisconnected
  | reconnectTimerFired
deriving DecidableEq, Repr

/-- Observable output of one transport step: whether a reconnect
`open()` was issued, and whether the exhaustion error was emitted. -/
structure TransportOutput where
  openAttempted : Bool
  reconnectExhaustedError : Bool
deriving DecidableEq, Repr

/-- One step of the reconnection state machine:
`onWebSocketConnected` resets the attempt counter and stops the timer;
`onWebSocketDisconnected` starts the single-shot reconnect timer only
while `m_reconnectAttempts < MAX_RECONNECT_ATTEMPTS`; the timer lambda
increments the counter and reopens while under the bound, otherwise
emits the exhaustion error. -/
def transportStep (s : TransportState) : TransportEvent → TransportState × TransportOutput
  | .socketConnected =>
    ({ s with isConnected := true, reconnectAttempts := 0,
              reconnectTimerActive := false, pingTimerActive := true },
     ⟨false, false⟩)
  | .socketDisconnected =>
    ({ s with isConnected := false, pingTimerActive := false,
              reconnectTimerActive :=
                if s.reconnectAttempts < maxReconnectAttempts then true
                else s.reconnectTimerActive },
     ⟨false, false⟩)
  | .reconnectTimerFired =>
    if s.reconnectTimerActive = false then (s, ⟨false, false⟩)
    else if s.reconnectAttempts < maxReconnectAttempts then
      ({ s with reconnectTimerActive := false,
                reconnectAttempts := s.reconnectAttempts + 1 },
       ⟨true, false⟩)
    else
      ({ s with reconnectTimerActive := false }, ⟨false, true⟩)

/-- Runs a list of transport events, counting issued reconnect
attempts. -/
def transportRun (s : TransportState) : List TransportEvent → TransportState × Nat
  | [] => (s, 0)
  | e :: es =>
    let step := transportStep s e
    let rest := transportRun step.1 es
    (rest.1, (if step.2.openAttempted then 1 else 0) + rest.2)

/-- The header document of a binary chunk frame:
`{transfer_id, chunk_index, checksum, is_last}`. -/
structure ChunkHeader where
  transferId : String
  chunkIndex : Int
  checksum : String
  isLast : Bool
deriving DecidableEq, Repr

/-- `struct FileChunk` (FileTransferManager.h). -/
structure FileChunk where
  transferId : String
  chunkIndex : Int
  data : List (Fin 256)
  checksum : String
  isLast : Bool
deriving DecidableEq, Repr

/-- The header document `sendBinaryChunk` builds from a chunk. -/
def headerOfChunk (c : FileChunk) : ChunkHeader :=
  ⟨c.transferId, c.chunkIndex, c.checksum, c.isLast⟩

/-- Truncation of a `Nat` to one byte (`& 0xFF` after a shift). -/
def byteOfNat (n : Nat) : Fin 256 :=
  ⟨n % 256, Nat.mod_lt n (by omega)⟩

/-- The 4-byte big-endian value read by
`onWebSocketBinaryMessageReceived` from the first four bytes of a
frame. -/
def beHeaderLength (data : List (Fin 256)) : Nat :=
  (data.getD 0 0).val * 16777216 + (data.getD 1 0).val * 65536 +
    (data.getD 2 0).val * 256 + (data.getD 3 0).val

/-- Reinterpretation of a 32-bit value as the signed C++ `int` the code
stores it in. -/
def toSigned32 (n : Nat) : Int :=
  if n < 2147483648 then (n : Int) else (n : Int) - 4294967296

/-- `QByteArray::mid(pos, len)`, after Qt 5's
`QContainerImplHelper::mid`: out-of-range positions give the empty
array, a negative length means "to the end", and the length is clamped
to the bytes available. -/
def qtMid (data : List (Fin 256)) (pos len : Int) : List (Fin 256) :=
  let n : Int := data.length
  if n < pos then []
  else if pos < 0 then
    if len < 0 ∨ n ≤ len + pos then data
    else if len + pos ≤ 0 then []
    else data.take (len + pos).toNat
  else
    let len2 : Int := if len < 0 ∨ n - pos < len then n - pos else len
    (data.drop pos.toNat).take len2.toNat

/-- The header bytes selected by the decoder:
`data.mid(4, headerLength)` with the signed header length. -/
def decodeHeaderSlice (data : List (Fin 256)) : List (Fin 256) :=
  qtMid data 4 (toSigned32 (beHeaderLength data))

/-- The payload bytes selected by the decoder:
`data.mid(4 + headerLength)` with the signed header length. -/
def decodePayloadSlice (data : List (Fin 256)) : List (Fin 256) :=
  qtMid data (4 + toSigned32 (beHeaderLength data)) (-1)

/-- `FileTransferManager::onWebSocketBinaryMessageReceived`, decoding a
binary frame into a chunk.  The header-document parser (Qt JSON) is an
external collaborator passed as a parameter; `none` models a frame that
is logged and discarded. -/
def decodeBinaryFrame (parseHeader : List (Fin 256) → Option ChunkHeader)
    (data : List (Fin 256)) : Option FileChunk :=
  if data.length < 4 then none
  else
    let headerLength := toSigned32 (beHeaderLength data)
    if (data.length : Int) - 4 < headerLength then none
    else
      match parseHeader (decodeHeaderSlice data) with
      | none => none
      | some h => some ⟨h.transferId, h.chunkIndex, decodePayloadSlice data,
                        h.checksum, h.isLast⟩

/-- `FileTransferManager::sendBinaryChunk`: serializes the header
document (via the external JSON encoder `encHeader`), prepends its
length as 4 big-endian bytes, and appends the payload. -/
def encodeBinaryFrame (encHeader : ChunkHeader → List (Fin 256))
    (c : FileChunk) : List (Fin 256) :=
  let headerData := encHeader (headerOfChunk c)
  let headerLength := headerData.length
  byteOfNat (headerLength / 16777216) :: byteOfNat (headerLength / 65536) ::
    byteOfNat (headerLength / 256) :: byteOfNat headerLength ::
    (headerData ++ c.data)

/-- Policy snapshot with a remembered "allow" for request id `t1`:
default extension list, default size limit, auto-approval off, remember
enabled. -/
def c1Config : ApprovalConfig :=
  ⟨defaultAllowedExtensions, defaultMaxFileSize, false, true, [("t1", true)]⟩

/-- Inbound request `t1` for a file whose extension is not allowed. -/
def c1Request : IncomingRequest :=
  ⟨"t1", "tool.exe", 1000⟩

/-- The operation sequence that brings a fresh session to `Completed`:
an approval response, `startTransfer`'s `setStatus(InProgress)`, and the
worker's `setStatus(Completed)`. -/
def completedSessionTrace : List SessionOp :=
  [.transferResponse "approved" "", .setStatus .InProgress, .setStatus .Completed]

/-- A session that has reached the terminal status `Completed`. -/
def completedSession : SessionState :=
  runSessionOps mkSessionState completedSessionTrace

/-- First, second and third timeout events for chunk 0 of a fresh
worker. -/
def timeoutOnce : WorkerRetryState × RetryAction :=
  onChunkTimeout mkWorkerRetryState

/-- Second timeout event. -/
def timeoutTwice : WorkerRetryState × RetryAction :=
  onChunkTimeout timeoutOnce.1

/-- Third timeout event. -/
def timeoutThrice : WorkerRetryState × RetryAction :=
  onChunkTimeout timeoutTwice.1

/-- A stand-in for the Qt JSON parser that recognizes exactly the
two-byte compact document `"\x7b\x7d"` (an empty object), whose missing
fields read back as the defaults `""`, `0`, `""`, `false` — precisely
what `QJsonValue::toString/toInt/toBool` return for absent keys. -/
def emptyObjectParse : List (Fin 256) → Option ChunkHeader :=
  fun bs => if bs = [123, 125] then some ⟨"", 0, "", false⟩ else none

/-- A six-byte binary frame whose 4-byte big-endian header length is
`0x80000000 = 2^31`, followed by the two bytes of an empty JSON
object. -/
def badLengthFrame : List (Fin 256) :=
  [128, 0, 0, 0, 123, 125]

/-- A one-byte stand-in header encoding used to witness the frame
round-trip. -/
def toyHeaderEnc : ChunkHeader → List (Fin 256) :=
  fun _ => [42]

/-- A concrete chunk used to witness the frame round-trip. -/
def witnessChunk : FileChunk :=
  ⟨"id7", 2, [9, 9, 9], "sum", true⟩

/-- The parser matching `toyHeaderEnc` on the witness chunk's header. -/
def toyHeaderParse : List (Fin 256) → Option ChunkHeader :=
  fun bs => if bs = [42] then some (headerOfChunk witnessChunk) else none

/-- An approval dialog whose remember checkbox the user has checked. -/
def checkedDialog : ApprovalDialogState :=
  { mkApprovalDialog with rememberChecked := true }

/-- The checked dialog after `setAutoTimeout(30)` and the timeout
firing. -/
def timedOutDialog : ApprovalDialogState :=
  dialogOnTimeout (dialogSetAutoTimeout checkedDialog 30)

/-- The transport state right after a successful connection: no
reconnect attempts recorded. -/
def connectedTransport : TransportState :=
  ⟨true, 0, false, true⟩

/-- Nat ceiling-division lower bound: `(n + c - 1) / c` chunks cover all
`n` bytes. -/
theorem ceil_chunks_cover (c n : Nat) (hc : 0 < c) (hn : 0 < n) :
    n ≤ (n + c - 1) / c * c := by
  have h := Nat.div_add_mod (n + c - 1) c
  have hm : (n + c - 1) % c < c := Nat.mod_lt _ hc
  rw [Nat.mul_comm] at h
  generalize hq : (n + c - 1) / c = q at h ⊢
  generalize hr : (n + c - 1) % c = r at h hm
  generalize hx : q * c = x at h ⊢
  omega

/-- Nat ceiling-division upper bound: the covered range is less than one
chunk beyond `n`. -/
theorem ceil_chunks_tight (c n : Nat) (hc : 0 < c) :
    (n + c - 1) / c * c < n + c := by
  have h := Nat.div_mul_le_self (n + c - 1) c
  omega

/-- Claim C6: for every transfer whose request has `fileSize N > 0`,
the total number of chunks computed by both the session constructor and
the worker constructor equals `(N + chunkSize - 1) / chunkSize`, which
is the ceiling of `N / chunkSize`: it is the least chunk count covering
all `N` bytes. -/
theorem total_chunks_is_ceiling (c n : Nat) (hc : 0 < c) (hn : 0 < n) :
    sessionTotalChunks c n = (n + c - 1) / c ∧
    workerTotalChunks c n = (n + c - 1) / c ∧
    n ≤ sessionTotalChunks c n * c ∧
    sessionTotalChunks c n * c < n + c := by
  have hs : sessionTotalChunks c n = (n + c - 1) / c := by
    simp [sessionTotalChunks, hn]
  have hw : workerTotalChunks c n = (n + c - 1) / c := by
    simp [workerTotalChunks, hn]
  refine ⟨hs, hw, ?_, ?_⟩
  · rw [hs]; exact ceil_chunks_cover c n hc hn
  · rw [hs]; exact ceil_chunks_tight c n hc

/-- Witness for C6 at the spec's example: a 133120-byte file with
65536-byte chunks needs 3 chunks. -/
theorem total_chunks_is_ceiling_witness :
    (0 : Nat) < 65536 ∧ (0 : Nat) < 133120 ∧ sessionTotalChunks 65536 133120 = 3 := by
  refine ⟨by decide, by decide, ?_⟩
  have h := (total_chunks_is_ceiling 65536 133120 (by decide) (by decide)).1
  rw [h]

/-- Int version of the covering bound for the session constructor's
chunk count. -/
theorem ceil_chunks_cover_int (c n : Int) (hc : 0 < c) (hn : 0 < n) :
    n ≤ (n + c - 1) / c * c := by
  have h := Int.ediv_add_emod (n + c - 1) c
  have hm0 : 0 ≤ (n + c - 1) % c := Int.emod_nonneg _ (by omega)
  have hm1 : (n + c - 1) % c < c := Int.emod_lt_of_pos _ hc
  rw [Int.mul_comm] at h
  generalize hq : (n + c - 1) / c = q at h ⊢
  generalize hr : (n + c - 1) % c = r at h hm0 hm1
  generalize hx : q * c = x at h ⊢
  omega

/-- Claim C7: for a session with `totalChunks > 0` and a non-negative
completed count, `updateChunkProgress` sets
`bytesTransferred = min(completed * chunkSize, fileSize)` and, when
`totalBytes > 0`, sets `percentage = 100 * bytesTransferred /
totalBytes`. -/
theorem update_chunk_progress_min (chunkSize fileSize completed : Int)
    (hC : 0 < chunkSize)
    (ht : 0 < (mkProgressState chunkSize fileSize).totalChunks)
    (_hc : 0 ≤ completed) :
    (updateChunkProgress chunkSize (mkProgressState chunkSize fileSize) completed).bytesTransferred
      = min (completed * chunkSize) fileSize ∧
    (0 < (mkProgressState chunkSize fileSize).totalBytes →
      (updateChunkProgress chunkSize (mkProgressState chunkSize fileSize) completed).percentage
        = 100 * ((updateChunkProgress chunkSize (mkProgressState chunkSize fileSize) completed).bytesTransferred : ℚ)
            / ((mkProgressState chunkSize fileSize).totalBytes : ℚ)) := by
  have hN : 0 < fileSize := by
    by_contra hneg
    simp [mkProgressState, if_neg hneg] at ht
  have htc : (mkProgressState chunkSize fileSize).totalChunks
      = (fileSize + chunkSize - 1) / chunkSize := by
    simp [mkProgressState, hN]
  have hcover : fileSize ≤ (fileSize + chunkSize - 1) / chunkSize * chunkSize :=
    ceil_chunks_cover_int chunkSize fileSize hC hN
  constructor
  · simp only [updateChunkProgress, if_pos ht]
    by_cases hlast : completed = (mkProgressState chunkSize fileSize).totalChunks ∧
        0 < (mkProgressState chunkSize fileSize).fileSize
    · rw [if_pos hlast]
      have : fileSize ≤ completed * chunkSize := by
        rw [hlast.1, htc]; exact hcover
      simp [mkProgressState]
      omega
    · rw [if_neg hlast]
      simp [mkProgressState]
  · intro htb
    simp only [updateChunkProgress, if_pos ht, if_pos htb]
    ring

/-- Witness for C7: two of three 65536-byte chunks of a 133120-byte
file give 131072 bytes transferred and percentage 131072·100/133120. -/
theorem update_chunk_progress_min_witness :
    (updateChunkProgress 65536 (mkProgressState 65536 133120) 2).bytesTransferred
      = min (2 * 65536) 133120 := by
  have h := (update_chunk_progress_min 65536 133120 2 (by decide) (by decide) (by decide)).1
  exact h

/-- Claim C2 counterexample: a session that reached the terminal status
`Completed` (via approval, start, completion) is moved back to `Pending`
by a later inbound `file_transfer_response` frame with status
`"pending"`, so a terminal session does transition again. -/
theorem terminal_status_not_absorbing :
    isTerminalStatus completedSession.status = true ∧
    (applySessionOp completedSession (.transferResponse "pending" "")).status = .Pending ∧
    (applySessionOp completedSession (.transferResponse "pending" "")).status ≠
      completedSession.status := by
  refine ⟨by decide, by decide, by decide⟩

/-- Claim C2 amended: `setStatus` applies every requested change whose
target differs from the current status — including changes out of
`Completed`, `Failed`, `Cancelled` and `Rejected`; the only suppressed
call is a no-op to the same status.  Terminal states are not enforced as
absorbing. -/
theorem set_status_unguarded (s : SessionState) (st : TransferStatus) :
    (st ≠ s.status → (sessionSetStatus s st).status = st) ∧
    sessionSetStatus s s.status = s := by
  constructor
  · intro h
    unfold sessionSetStatus
    rw [if_neg (fun hh => h hh.symm)]
  · unfold sessionSetStatus
    rw [if_pos rfl]

/-- Witness for the amended C2: a Completed session accepts a change to
Pending. -/
theorem set_status_unguarded_witness :
    (sessionSetStatus ⟨.Completed, "", false, false, false⟩ .Pending).status = .Pending :=
  (set_status_unguarded ⟨.Completed, "", false, false, false⟩ .Pending).1 (by decide)

/-- Claim C1 counterexample: request `t1` has a remembered allow
decision (and remembering is enabled), yet the evaluation denies it for
its extension — the remembered decision is not consulted before the
extension check. -/
theorem remembered_decision_not_first :
    lookupDecision c1Config.rememberedDecisions c1Request.transferId = some true ∧
    c1Config.rememberDecisionEnabled = true ∧
    evaluateTransferRequest c1Config c1Request =
      .decided false "File extension not allowed: exe" ∧
    evaluateTransferRequest c1Config c1Request ≠
      .decided true "Auto-approved (remembered)" := by
  refine ⟨by decide, by decide, by decide, by decide⟩

/-- Claim C1 amended: the remembered decision is consulted only after
the extension check, the size check and the auto-approval check have
all let the request through, and only when remembering is enabled; at
that point it resolves the request accordingly, and it is still
consulted before any user prompt: a prompt implies no remembered
decision was applicable. -/
theorem remembered_decision_after_checks (cfg : ApprovalConfig)
    (req : IncomingRequest) (b : Bool)
    (h1 : isFileExtensionAllowed cfg.allowedExtensions req.filename = true)
    (h2 : isFileSizeValid cfg.maxFileSize req.fileSize = true)
    (h3 : cfg.autoApprovalEnabled = false)
    (h4 : cfg.rememberDecisionEnabled = true)
    (h5 : lookupDecision cfg.rememberedDecisions req.transferId = some b) :
    evaluateTransferRequest cfg req =
      .decided b (if b then "Auto-approved (remembered)"
                  else "Auto-rejected (remembered)") ∧
    (∀ cfg2 req2, cfg2.rememberDecisionEnabled = true →
      evaluateTransferRequest cfg2 req2 = .prompted →
      lookupDecision cfg2.rememberedDecisions req2.transferId = none) := by
  constructor
  · unfold evaluateTransferRequest
    rw [h1, h2, h3, h4, h5]
    cases b <;> simp
  · intro cfg2 req2 hr h
    unfold evaluateTransferRequest at h
    rw [hr] at h
    split_ifs at h with hx1 hx2 hx3 hx4
    · cases hl : lookupDecision cfg2.rememberedDecisions req2.transferId with
      | none => rfl
      | some bv =>
        rw [hl] at h
        cases bv <;> simp at h
    · exact absurd rfl hx4

/-- Witness for the amended C1: a remembered deny on `t2` resolves a
request that passes the extension and size checks. -/
theorem remembered_decision_after_checks_witness :
    evaluateTransferRequest
      ⟨defaultAllowedExtensions, defaultMaxFileSize, false, true, [("t2", false)]⟩
      ⟨"t2", "notes.txt", 1000⟩ =
      .decided false "Auto-rejected (remembered)" := by
  have h := (remembered_decision_after_checks
    ⟨defaultAllowedExtensions, defaultMaxFileSize, false, true, [("t2", false)]⟩
    ⟨"t2", "notes.txt", 1000⟩ false
    (by decide) (by decide) (by decide) (by decide) (by decide)).1
  simpa using h

/-- Claim C3 counterexample: starting from a fresh worker, the first and
second timeouts for chunk 0 schedule retries (after 1000 ms and
2000 ms), and the third timeout already emits the fatal
`transferFailed` — the chunk is retransmitted only twice and the third
failure, not the fourth, is fatal. -/
theorem third_chunk_failure_fatal :
    timeoutOnce.2 = .scheduledRetry 1000 ∧
    timeoutTwice.2 = .scheduledRetry 2000 ∧
    timeoutThrice.2 = .failed "Chunk 0 failed after 3 retries" ∧
    ∀ d, timeoutThrice.2 ≠ .scheduledRetry d := by
  refine ⟨by decide, by decide, by decide, ?_⟩
  intro d
  have h : timeoutThrice.2 = .failed "Chunk 0 failed after 3 retries" := by decide
  rw [h]
  intro hc
  cases hc

/-- Claim C3 amended: each timeout (and each download-side checksum
mismatch) increments `retries[i]`; while the incremented counter stays
below 3 a retry is scheduled after `1000 · 2^(retries[i]−1)` ms, and as
soon as it reaches 3 the worker emits
`transferFailed("Chunk i failed after 3 retries")` (respectively
`"Chunk i checksum failed after 3 retries"`): a chunk is retransmitted
at most twice and its third failure is fatal. -/
theorem chunk_retry_bound (st : WorkerRetryState)
    (h1 : st.isRunning = true) (h2 : st.isCancelled = false) :
    ((onChunkTimeout st).1.chunkRetries =
      setRetries st.chunkRetries st.currentChunkIndex
        (retriesValue st.chunkRetries st.currentChunkIndex + 1)) ∧
    (retriesValue st.chunkRetries st.currentChunkIndex + 1 < 3 →
      (onChunkTimeout st).2 = .scheduledRetry
        (1000 * 2 ^ (retriesValue st.chunkRetries st.currentChunkIndex + 1 - 1))) ∧
    (3 ≤ retriesValue st.chunkRetries st.currentChunkIndex + 1 →
      (onChunkTimeout st).2 = .failed
        ("Chunk " ++ toString st.currentChunkIndex ++ " failed after 3 retries")) ∧
    (∀ i, retriesValue st.chunkRetries i + 1 < 3 →
      (onChunkChecksumMismatch st i).2 = .scheduledRetry
        (1000 * 2 ^ (retriesValue st.chunkRetries i + 1 - 1))) ∧
    (∀ i, 3 ≤ retriesValue st.chunkRetries i + 1 →
      (onChunkChecksumMismatch st i).2 = .failed
        ("Chunk " ++ toString i ++ " checksum failed after 3 retries")) := by
  have hguard : ¬ (st.isRunning = false ∨ st.isCancelled = true) := by
    rw [h1, h2]; simp
  refine ⟨?_, ?_, ?_, ?_, ?_⟩
  · simp only [onChunkTimeout, if_neg hguard]
    split_ifs <;> rfl
  · intro hlt
    simp only [onChunkTimeout, if_neg hguard]
    rw [if_neg (by simp only [maxChunkRetries]; omega)]
    rfl
  · intro hge
    simp only [onChunkTimeout, if_neg hguard]
    rw [if_pos (by simp only [maxChunkRetries]; omega)]
  · intro i hlt
    simp only [onChunkChecksumMismatch, if_neg hguard]
    rw [if_neg (by simp only [maxChunkRetries]; omega)]
    rfl
  · intro i hge
    simp only [onChunkChecksumMismatch, if_neg hguard]
    rw [if_pos (by simp only [maxChunkRetries]; omega)]

/-- Witness for the amended C3: the first timeout of a fresh worker
schedules a 1000 ms retry. -/
theorem chunk_retry_bound_witness :
    (onChunkTimeout mkWorkerRetryState).2 = .scheduledRetry 1000 := by
  have h := (chunk_retry_bound mkWorkerRetryState (by decide) (by decide)).2.1
    (by decide)
  simpa using h

/-- Claim C8 counterexample: after the prompt times out, the dialog's
message is `"Request timed out"`, not `"timed out"`, and when the user
had checked the remember box before the timeout fired, the finish
handler still saves a remembered (deny) decision. -/
theorem approval_timeout_saves_checked_decision :
    timedOutDialog.approved = false ∧
    timedOutDialog.message = "Request timed out" ∧
    timedOutDialog.message ≠ "timed out" ∧
    (onApprovalDialogFinished [] "t1" timedOutDialog).1 = [("t1", false)] := by
  refine ⟨by decide, by decide, by decide, by decide⟩

/-- Claim C8 amended: on timeout the dialog resolves as not approved
with message `"Request timed out"`; a remembered decision is saved
exactly when the remember checkbox is checked (it starts unchecked and
the timeout does not clear it); `setApprovalTimeout` clamps values
below 5 seconds to 5, and the manager's default timeout is 30
seconds. -/
theorem approval_timeout_behavior (d : ApprovalDialogState)
    (decisions : List (String × Bool)) (tid : String) (s : Int) :
    (dialogOnTimeout d).approved = false ∧
    (dialogOnTimeout d).message = "Request timed out" ∧
    (d.rememberChecked = false →
      (onApprovalDialogFinished decisions tid (dialogOnTimeout d)).1 = decisions) ∧
    (d.rememberChecked = true →
      (onApprovalDialogFinished decisions tid (dialogOnTimeout d)).1 =
        insertDecision decisions tid false) ∧
    mkApprovalDialog.rememberChecked = false ∧
    5 ≤ setApprovalTimeoutClamp s ∧
    (5 ≤ s → setApprovalTimeoutClamp s = s) ∧
    (s < 5 → setApprovalTimeoutClamp s = 5) ∧
    defaultApprovalTimeout = 30 := by
  refine ⟨rfl, rfl, ?_, ?_, rfl, ?_, ?_, ?_, rfl⟩
  · intro h
    simp [onApprovalDialogFinished, dialogOnTimeout, h]
  · intro h
    simp [onApprovalDialogFinished, dialogOnTimeout, insertDecision, h]
  · simp [setApprovalTimeoutClamp]
  · intro h
    simp [setApprovalTimeoutClamp]
    omega
  · intro h
    simp [setApprovalTimeoutClamp]
    omega

/-- Witness for the amended C8: with the checkbox unchecked nothing is
saved, and `setApprovalTimeout(2)` yields 5. -/
theorem approval_timeout_behavior_witness :
    (onApprovalDialogFinished [] "t1" (dialogOnTimeout mkApprovalDialog)).1 = [] ∧
    setApprovalTimeoutClamp 2 = 5 := by
  have h := approval_timeout_behavior mkApprovalDialog [] "t1" 2
  exact ⟨h.2.2.1 rfl, h.2.2.2.2.2.2.2.1 (by decide)⟩

/-- Within a disconnect episode (no successful connection among the
events), the number of reconnect attempts issued is bounded by the
remaining budget `MAX_RECONNECT_ATTEMPTS - reconnectAttempts`. -/
theorem transport_opens_budget (es : List TransportEvent) :
    ∀ s : TransportState, (∀ e ∈ es, e ≠ TransportEvent.socketConnected) →
      (transportRun s es).2 ≤ maxReconnectAttempts - s.reconnectAttempts := by
  induction es with
  | nil => intro s _; simp [transportRun]
  | cons e es ih =>
    intro s hep
    have hee : e ≠ TransportEvent.socketConnected := hep e (by simp)
    have hes : ∀ e2 ∈ es, e2 ≠ TransportEvent.socketConnected := by
      intro e2 h2; exact hep e2 (by simp [h2])
    cases e with
    | socketConnected => exact absurd rfl hee
    | socketDisconnected =>
      have h := ih (transportStep s .socketDisconnected).1 hes
      simp only [transportRun, transportStep] at h ⊢
      simpa using h
    | reconnectTimerFired =>
      have h := ih (transportStep s .reconnectTimerFired).1 hes
      by_cases hact : s.reconnectTimerActive = false
      · simp [transportRun, transportStep, hact, maxReconnectAttempts] at h ⊢
        omega
      · by_cases hlt : s.reconnectAttempts < maxReconnectAttempts
        · simp only [maxReconnectAttempts] at hlt
          simp [transportRun, transportStep, hact, hlt, maxReconnectAttempts] at h ⊢
          omega
        · simp only [maxReconnectAttempts] at hlt
          simp [transportRun, transportStep, hact, hlt, maxReconnectAttempts] at h ⊢
          omega

/-- Claim C9: in any disconnect episode (a run of disconnect and timer
events containing no successful connection) starting with a zeroed
attempt counter, at most 5 reconnect attempts are issued; a successful
connection resets the counter to 0 (so the bound is per episode); once
the counter is exhausted a further disconnect no longer arms the
reconnect timer, and a timer firing past the bound emits the
exhaustion connection error instead of reopening. -/
theorem reconnect_attempts_bounded (s : TransportState)
    (es : List TransportEvent)
    (h0 : s.reconnectAttempts = 0)
    (hep : ∀ e ∈ es, e ≠ TransportEvent.socketConnected) :
    (transportRun s es).2 ≤ 5 ∧
    (∀ s2 : TransportState,
      (transportStep s2 .socketConnected).1.reconnectAttempts = 0) ∧
    (∀ s2 : TransportState, s2.reconnectAttempts = maxReconnectAttempts →
      s2.reconnectTimerActive = false →
      (transportStep s2 .socketDisconnected).1.reconnectTimerActive = false) ∧
    (∀ s2 : TransportState, s2.reconnectTimerActive = true →
      ¬ s2.reconnectAttempts < maxReconnectAttempts →
      (transportStep s2 .reconnectTimerFired).2.reconnectExhaustedError = true ∧
      (transportStep s2 .reconnectTimerFired).2.openAttempted = false) := by
  refine ⟨?_, ?_, ?_, ?_⟩
  · have h := transport_opens_budget es s hep
    rw [h0] at h
    simpa [maxReconnectAttempts] using h
  · intro s2; rfl
  · intro s2 ha ht
    simp [transportStep, ha, ht]
  · intro s2 ht hge
    constructor <;> simp [transportStep, ht, hge]

/-- Witness for C9: a freshly connected transport that drops and whose
timer fires once issues a single reconnect attempt, within the bound. -/
theorem reconnect_attempts_bounded_witness :
    (transportRun connectedTransport
      [.socketDisconnected, .reconnectTimerFired]).2 ≤ 5 :=
  (reconnect_attempts_bounded connectedTransport
    [.socketDisconnected, .reconnectTimerFired]
    (by decide) (by decide)).1

/-- Claim C10: a path whose filename has an empty suffix skips the
upload-side extension check entirely — `validateFile` accepts it
whenever the file exists, is regular, fits the size limit and is not an
executable MIME type — while the inbound-request check
`isFileExtensionAllowed` rejects the same name whenever `"."` is not in
the allowed list. -/
theorem empty_extension_asymmetry (maxFileSize : Int)
    (allowedExtensions : List String) (fi : LocalFileInfo)
    (hsuffix : qtSuffix fi.path = "")
    (hex : fi.fileExists = true)
    (hreg : fi.isRegularFile = true)
    (hsize : fi.size ≤ maxFileSize)
    (hmime : fi.mimeIsExecutable = false) :
    validateFile maxFileSize allowedExtensions fi = none ∧
    (containsString allowedExtensions "." = false →
      isFileExtensionAllowed allowedExtensions fi.path = false) := by
  constructor
  · unfold validateFile
    rw [hex, hreg, hmime, hsuffix]
    rw [if_neg (by simp), if_neg (by simp), if_neg (by omega)]
    rw [if_neg (by simp [qtToLower])]
    simp
  · intro hdot
    unfold isFileExtensionAllowed
    rw [hsuffix]
    simpa [qtToLower] using hdot

/-- Witness for C10: `Makefile` (no suffix) passes `validateFile` under
the default policy but fails `isFileExtensionAllowed`. -/
theorem empty_extension_asymmetry_witness :
    validateFile defaultMaxFileSize defaultAllowedExtensions
      ⟨true, true, 1000, "Makefile", false⟩ = none ∧
    isFileExtensionAllowed defaultAllowedExtensions "Makefile" = false := by
  have h := empty_extension_asymmetry defaultMaxFileSize defaultAllowedExtensions
    ⟨true, true, 1000, "Makefile", false⟩
    (by decide) (by decide) (by decide) (by decide) (by decide)
  exact ⟨h.1, h.2 (by decide)⟩

/-- Reading back the four big-endian bytes written for a value below
`2^32` recovers the value. -/
theorem beHeaderLength_encode (n : Nat) (tail : List (Fin 256))
    (h : n < 4294967296) :
    beHeaderLength (byteOfNat (n / 16777216) :: byteOfNat (n / 65536) ::
      byteOfNat (n / 256) :: byteOfNat n :: tail) = n := by
  simp only [beHeaderLength, byteOfNat, List.getD, List.get?_cons_zero,
    List.get?_cons_succ, Option.getD_some]
  omega

/-- `mid(4, k)` with an in-range non-negative length takes `k` bytes
after the 4-byte prefix. -/
theorem qtMid_take (data : List (Fin 256)) (k : Nat)
    (h4 : 4 ≤ data.length) (hk : (k : Int) ≤ (data.length : Int) - 4) :
    qtMid data 4 (k : Int) = (data.drop 4).take k := by
  unfold qtMid
  rw [if_neg (by push_cast; omega), if_neg (by omega)]
  rw [if_neg (by push_cast; omega : ¬ ((k : Int) < 0 ∨ (data.length : Int) - 4 < (k : Int)))]
  norm_num
  rfl

/-- `mid(k)` (length `-1`) with an in-range non-negative position drops
the first `k` bytes. -/
theorem qtMid_drop (data : List (Fin 256)) (k : Nat) (hk : k ≤ data.length) :
    qtMid data (k : Int) (-1) = data.drop k := by
  unfold qtMid
  rw [if_neg (by push_cast; omega), if_neg (by push_cast; omega)]
  rw [if_pos (by norm_num : ((-1 : Int) < 0 ∨ (data.length : Int) - (k : Int) < -1))]
  show List.take ((data.length : Int) - (k : Int)).toNat
      (List.drop ((k : Int)).toNat data) = data.drop k
  have h1 : ((data.length : Int) - (k : Int)).toNat = data.length - k := by omega
  rw [h1, Int.toNat_natCast]
  have h2 : (data.drop k).length = data.length - k := by
    simp [List.length_drop]
  rw [← h2, List.take_length]

/-- Claim C5: a chunk encoded by `sendBinaryChunk` decodes back to
itself: the 4-byte big-endian length framing, the header slice and the
payload slice all invert, given that the external JSON codec returns
the chunk's header document (its round-trip property) and the header
document is shorter than `2^31` bytes (every `QByteArray` is). -/
theorem frame_roundtrip (encHeader : ChunkHeader → List (Fin 256))
    (parseHeader : List (Fin 256) → Option ChunkHeader) (c : FileChunk)
    (hparse : parseHeader (encHeader (headerOfChunk c)) = some (headerOfChunk c))
    (hlen : (encHeader (headerOfChunk c)).length < 2147483648) :
    decodeBinaryFrame parseHeader (encodeBinaryFrame encHeader c) = some c := by
  obtain ⟨t, ix, d, cs, l⟩ := c
  simp only [headerOfChunk] at hparse hlen
  set hd := encHeader ⟨t, ix, cs, l⟩ with hhd
  have hdataeq : encodeBinaryFrame encHeader ⟨t, ix, d, cs, l⟩ =
      byteOfNat (hd.length / 16777216) :: byteOfNat (hd.length / 65536) ::
      byteOfNat (hd.length / 256) :: byteOfNat hd.length :: (hd ++ d) := rfl
  rw [hdataeq]
  set data := byteOfNat (hd.length / 16777216) :: byteOfNat (hd.length / 65536) ::
      byteOfNat (hd.length / 256) :: byteOfNat hd.length :: (hd ++ d) with hdata
  have hlen4 : data.length = 4 + (hd.length + d.length) := by
    simp [hdata]
    omega
  have hbe : beHeaderLength data = hd.length := by
    rw [hdata]
    exact beHeaderLength_encode hd.length (hd ++ d) (by omega)
  have hts : toSigned32 (beHeaderLength data) = (hd.length : Int) := by
    rw [hbe]
    unfold toSigned32
    rw [if_pos hlen]
  have hhead : decodeHeaderSlice data = hd := by
    unfold decodeHeaderSlice
    rw [hts, qtMid_take data hd.length (by omega) (by push_cast; omega)]
    have hdrop : data.drop 4 = hd ++ d := by simp [hdata]
    rw [hdrop]
    exact List.take_left _ _
  have hpay : decodePayloadSlice data = d := by
    unfold decodePayloadSlice
    rw [hts]
    have h4n : (4 : Int) + (hd.length : Int) = ((4 + hd.length : Nat) : Int) := by
      push_cast; ring
    rw [h4n, qtMid_drop data (4 + hd.length) (by omega)]
    have hdrop : data.drop (4 + hd.length) = (hd ++ d).drop hd.length := by
      rw [← List.drop_drop hd.length 4 data]
      have hdrop4 : data.drop 4 = hd ++ d := by simp [hdata]
      rw [hdrop4]
    rw [hdrop]
    exact List.drop_left _ _
  simp only [decodeBinaryFrame]
  rw [if_neg (by omega : ¬ data.length < 4)]
  rw [hts, if_neg (by push_cast; omega : ¬ ((data.length : Int) - 4 < (hd.length : Int)))]
  rw [hhead, hparse, hpay]

/-- Witness for C5 with a concrete chunk and a stand-in header codec
satisfying the round-trip hypothesis at that chunk. -/
theorem frame_roundtrip_witness :
    decodeBinaryFrame toyHeaderParse (encodeBinaryFrame toyHeaderEnc witnessChunk)
      = some witnessChunk :=
  frame_roundtrip toyHeaderEnc toyHeaderParse witnessChunk (by decide) (by decide)

/-- Claim C4 counterexample: `badLengthFrame` has header length
`H = 2^31 > frame length − 4`, so by the claim it must be discarded;
but the code stores `H` in a signed `int`, the negative value passes
the `headerLength > data.size() - 4` check, `mid(4, negative)` yields
the whole remainder (here a well-formed empty JSON object), and the
frame is decoded into a chunk whose payload is the entire frame. -/
theorem oversized_header_length_decoded :
    ((badLengthFrame.length : Int) - 4 < (beHeaderLength badLengthFrame : Int)) ∧
    decodeBinaryFrame emptyObjectParse badLengthFrame =
      some ⟨"", 0, badLengthFrame, "", false⟩ ∧
    decodeBinaryFrame emptyObjectParse badLengthFrame ≠ none := by
  refine ⟨by decide, by decide, by decide⟩

/-- Claim C4 amended: decoding fails exactly when the frame is shorter
than 4 bytes, or the header length **reinterpreted as a signed 32-bit
integer** exceeds frame length − 4, or the selected header slice fails
to parse; a successful decode carries the header's fields and the
payload slice; and whenever `H < 2^31` (so the signed and unsigned
readings agree) the header slice is exactly the `H` bytes after the
prefix and the payload is the remaining bytes, as the claim states. -/
theorem binary_decode_characterization
    (parseHeader : List (Fin 256) → Option ChunkHeader)
    (data : List (Fin 256)) :
    (decodeBinaryFrame parseHeader data = none ↔
      (data.length < 4 ∨
        (data.length : Int) - 4 < toSigned32 (beHeaderLength data) ∨
        parseHeader (decodeHeaderSlice data) = none)) ∧
    (∀ h : ChunkHeader, ¬ data.length < 4 →
      ¬ ((data.length : Int) - 4 < toSigned32 (beHeaderLength data)) →
      parseHeader (decodeHeaderSlice data) = some h →
      decodeBinaryFrame parseHeader data =
        some ⟨h.transferId, h.chunkIndex, decodePayloadSlice data,
              h.checksum, h.isLast⟩) ∧
    (∀ n : Nat, beHeaderLength data = n → n < 2147483648 →
      (n : Int) ≤ (data.length : Int) - 4 →
      decodeHeaderSlice data = (data.drop 4).take n ∧
      decodePayloadSlice data = data.drop (4 + n)) := by
  refine ⟨?_, ?_, ?_⟩
  · unfold decodeBinaryFrame
    by_cases h1 : data.length < 4
    · simp [h1]
    · rw [if_neg h1]
      by_cases h2 : (data.length : Int) - 4 < toSigned32 (beHeaderLength data)
      · simp [h1, h2]
      · rw [if_neg h2]
        cases hp : parseHeader (decodeHeaderSlice data) with
        | none => simp [h1, h2, hp]
        | some hh => simp [h1, h2, hp]
  · intro h h1 h2 hp
    unfold decodeBinaryFrame
    rw [if_neg h1, if_neg h2, hp]
  · intro n hbe hn hle
    have hts : toSigned32 (beHeaderLength data) = (n : Int) := by
      rw [hbe]; unfold toSigned32; rw [if_pos hn]
    have h4 : 4 ≤ data.length := by omega
    constructor
    · unfold decodeHeaderSlice
      rw [hts, qtMid_take data n h4 hle]
    · unfold decodePayloadSlice
      rw [hts]
      have h4n : (4 : Int) + (n : Int) = ((4 + n : Nat) : Int) := by push_cast; ring
      rw [h4n, qtMid_drop data (4 + n) (by omega)]

/-- Witness for the amended C4: a five-byte frame with header length 1
decodes through the success branch of the characterization. -/
theorem binary_decode_characterization_witness :
    decodeBinaryFrame toyHeaderParse [0, 0, 0, 1, 42] =
      some ⟨"id7", 2, decodePayloadSlice [0, 0, 0, 1, 42], "sum", true⟩ :=
  (binary_decode_characterization toyHeaderParse [0, 0, 0, 1, 42]).2.1
    (headerOfChunk witnessChunk) (by decide) (by decide) (by decide)
